import Mathlib

/-!
# Verification of the pace-calculator core (`pacecalc.py`)

A shallow embedding of the parsing-and-computation engine of the pace
calculator: the three quantity parsers (`distance_str_to_km`,
`time_str_to_minutes`, `pace_str_to_minutes`), the minutes formatter
(`minutes_to_time_str`), and the derivation engine (`calculate_metrics`),
together with theorems settling the specification claims.

Python floats are modelled by `ℚ`.  All decimal literals occurring in the
program (42.195, 21.0975, 1.609344, ...) are represented exactly; the
model therefore agrees with IEEE doubles on every comparison the program
performs between values produced from the same decimal literal.
-/

namespace PaceCalc

/-! ## Modelled Python string primitives -/

/-- Models `str.lower` on the ASCII letters (the only characters the
program's unit tokens and numeric inputs contain). -/
def pyLowerChar (c : Char) : Char :=
  match c with
  | 'A' => 'a' | 'B' => 'b' | 'C' => 'c' | 'D' => 'd' | 'E' => 'e'
  | 'F' => 'f' | 'G' => 'g' | 'H' => 'h' | 'I' => 'i' | 'J' => 'j'
  | 'K' => 'k' | 'L' => 'l' | 'M' => 'm' | 'N' => 'n' | 'O' => 'o'
  | 'P' => 'p' | 'Q' => 'q' | 'R' => 'r' | 'S' => 's' | 'T' => 't'
  | 'U' => 'u' | 'V' => 'v' | 'W' => 'w' | 'X' => 'x' | 'Y' => 'y'
  | 'Z' => 'z' | _ => c

/-- Models `str.lower`. -/
def pyLower (s : String) : String := String.mk (s.data.map pyLowerChar)

/-- ASCII whitespace, as removed by `str.strip()`. -/
def isPySpace (c : Char) : Bool :=
  c = ' ' || c = '\t' || c = '\n' || c = '\r' || c = '\x0b' || c = '\x0c'

/-- Models `str.strip()` (ASCII whitespace). -/
def pyStrip (s : String) : String :=
  String.mk (((s.data.dropWhile isPySpace).reverse.dropWhile isPySpace).reverse)

/-- Models `str.split(sep)` for a one-character separator, on the
character-list level.  `Python: "".split(":") == [""]`. -/
def splitOnChar (c : Char) : List Char → List (List Char)
  | [] => [[]]
  | x :: xs =>
      let r := splitOnChar c xs
      if x = c then [] :: r
      else
        match r with
        | h :: t => (x :: h) :: t
        | [] => [[x]]

/-- Models `str.endswith(suffix)`. -/
def pyEndsWith (s suffix : String) : Bool :=
  decide (suffix.data.length ≤ s.data.length ∧
    s.data.drop (s.data.length - suffix.data.length) = suffix.data)

/-- Models `str.removesuffix(suffix)`. -/
def pyRemoveSuffix (s suffix : String) : String :=
  if pyEndsWith s suffix then
    String.mk (s.data.take (s.data.length - suffix.data.length))
  else s

/-! ## Modelled Python `float` constructor -/

/-- Value of a digit string read in base 10. -/
def digitsVal (ds : List Char) : ℕ :=
  ds.foldl (fun a c => 10 * a + (c.toNat - 48)) 0

/-- Models `float(s)` on an unsigned finite decimal literal: digits with at
most one decimal point and at least one digit.  (Scientific notation,
underscore digit grouping, `inf`/`nan` tokens and surrounding whitespace,
which CPython's `float` also accepts, are outside this model; no claim
depends on them.) -/
def pyFloatUnsigned (cs : List Char) : Option ℚ :=
  match splitOnChar '.' cs with
  | [w] =>
      if w ≠ [] ∧ w.all Char.isDigit then some (digitsVal w : ℚ) else none
  | [w, f] =>
      if (w ≠ [] ∨ f ≠ []) ∧ w.all Char.isDigit ∧ f.all Char.isDigit then
        some ((digitsVal w : ℚ) + (digitsVal f : ℚ) / (10 ^ f.length : ℚ))
      else none
  | _ => none

/-- Models `float(s)` (finite decimal literals, with optional sign). -/
def pyFloatL (cs : List Char) : Option ℚ :=
  match cs with
  | c :: t =>
      if c = '-' then (pyFloatUnsigned t).map (fun q => -q)
      else if c = '+' then pyFloatUnsigned t
      else pyFloatUnsigned cs
  | [] => pyFloatUnsigned []

/-! ## Errors

The program signals failures with the custom `InputError(unit, input_type)`
exception and, on some paths, with Python's builtin `ValueError` (raised by
`float` on a bad literal, and raised explicitly for a wrong argument count)
and builtin `ZeroDivisionError` (raised by float division by zero). -/

/-- Message of the `ValueError` raised by `float` on a bad literal
(CPython additionally wraps the offending string in repr quotes, elided
here). -/
def floatErrMsg (s : String) : String :=
  "could not convert string to float: " ++ s

/-- Message of the `ValueError` raised by `calculate_metrics` on a wrong
argument count: the error the spec names `InvalidArguments`. -/
def invalidArgumentsMsg : String :=
  "Exactly two of distance, time, and pace must be provided"

/-- The exceptions the engine can raise.  `inputError` is the program's own
typed `InputError`; `valueError` and `zeroDivisionError` are the Python
builtins that escape untyped. -/
inductive PyError where
  | inputError (unit : String) (input_type : String)
  | valueError (msg : String)
  | zeroDivisionError
  deriving DecidableEq, Repr

/-! ## Tables -/

/-- `PaceCalculator.DISTANCE_UNITS`, in Python dict insertion order
(iteration order is observable in the suffix scan). -/
def DISTANCE_UNITS : List (String × ℚ) :=
  [("mi", 1.609344),
   ("km", 1.0),
   ("k", 1.0),
   ("m", 42.195),
   ("marathon", 42.195),
   ("hm", 21.0975),
   ("half-marathon", 21.0975),
   ("10k", 10.0),
   ("5k", 5.0),
   ("1k", 1.0),
   ("400m", 0.4),
   ("800m", 0.8),
   ("1mi", 1.609344)]

/-- `PaceCalculator.TRAINING_ZONES`, in insertion order. -/
def TRAINING_ZONES : List (String × ℚ × ℚ) :=
  [("Easy", 1.15, 1.25),
   ("Threshold", 1.05, 1.15),
   ("Tempo", 1.0, 1.05),
   ("VO2 Max", 0.9, 1.0),
   ("Speed", 0.8, 0.9)]

/-- Models `distance in DISTANCE_UNITS` / dict indexing (exact key match). -/
def lookupUnit (d : String) : List (String × ℚ) → Option ℚ
  | [] => none
  | (u, m) :: rest => if d = u then some m else lookupUnit d rest

/-- Models the suffix scan `for unit, multiplier in DISTANCE_UNITS.items():
if distance.endswith(unit)`: first entry (in table order) whose token is a
suffix of `d`. -/
def findSuffixUnit (d : String) : List (String × ℚ) → Option (String × ℚ)
  | [] => none
  | (u, m) :: rest => if pyEndsWith d u then some (u, m) else findSuffixUnit d rest

/-! ## Quantity parsers -/

/-- `PaceCalculator.distance_str_to_km`. -/
def distance_str_to_km (distance : String) : Except PyError ℚ :=
  let d := pyStrip (pyLower distance)
  match lookupUnit d DISTANCE_UNITS with
  | some value => .ok value
  | none =>
    match findSuffixUnit d DISTANCE_UNITS with
    | some (unit, multiplier) =>
      match pyFloatL (pyRemoveSuffix d unit).data with
      | some value => .ok (value * multiplier)
      | none => .error (.inputError d "distance")
    | none =>
      match pyFloatL d.data with
      | some value => .ok value
      | none => .error (.inputError d "distance")

/-- One optional regex group `(?:(\d+(?:\.\d+)?)u)?` of the letter-time
pattern: a (possibly fractional) decimal number immediately followed by the
unit letter `u`.  Returns the value and the rest of the input; `none` when
the group does not match here (the regex then skips the optional group). -/
def parseGroup (u : Char) (cs : List Char) : Option (ℚ × List Char) :=
  let ds := cs.takeWhile Char.isDigit
  let rest := cs.dropWhile Char.isDigit
  if ds.isEmpty then none
  else
    match rest with
    | '.' :: rest2 =>
        let fs := rest2.takeWhile Char.isDigit
        let rest3 := rest2.dropWhile Char.isDigit
        if fs.isEmpty then
          match rest with
          | c :: r => if c = u then some ((digitsVal ds : ℚ), r) else none
          | [] => none
        else
          match rest3 with
          | c :: r =>
              if c = u then
                some ((digitsVal ds : ℚ) + (digitsVal fs : ℚ) / (10 ^ fs.length : ℚ), r)
              else none
          | [] => none
    | c :: r => if c = u then some ((digitsVal ds : ℚ), r) else none
    | [] => none

/-- The optional seconds group `(?:(\d+)s)?`: an integer immediately
followed by `'s'`. -/
def parseSecGroup (cs : List Char) : Option (ℚ × List Char) :=
  let ds := cs.takeWhile Char.isDigit
  let rest := cs.dropWhile Char.isDigit
  if ds.isEmpty then none
  else
    match rest with
    | 's' :: r => some ((digitsVal ds : ℚ), r)
    | _ => none

/-- The anchored pattern
`^(?:(\d+(?:\.\d+)?)h)?(?:(\d+(?:\.\d+)?)m)?(?:(\d+)s)?$` and the value
`hours*60 + minutes + seconds/60` computed from it (missing groups default
to 0).  Each optional group requires a distinct terminal letter right after
its digits, so greedy sequential matching coincides with the regex. -/
def parseLettersPattern (cs : List Char) : Option ℚ :=
  let p1 := (parseGroup 'h' cs).getD (0, cs)
  let p2 := (parseGroup 'm' p1.2).getD (0, p1.2)
  let p3 := (parseSecGroup p2.2).getD (0, p2.2)
  if p3.2.isEmpty then some (p1.1 * 60 + p2.1 + p3.1 / 60) else none

/-- `PaceCalculator._parse_time_with_letters`. -/
def _parse_time_with_letters (time : String) : Except PyError ℚ :=
  match parseLettersPattern time.data with
  | some v => .ok v
  | none => .error (.inputError time "time")

/-- `PaceCalculator._parse_time_with_colons`.  The `float` calls here are
not wrapped in a `try`: a bad part escapes as a builtin `ValueError`. -/
def _parse_time_with_colons (time : String) : Except PyError ℚ :=
  match splitOnChar ':' time.data with
  | [m, s] =>
      match pyFloatL m with
      | none => .error (.valueError (floatErrMsg (String.mk m)))
      | some mv =>
        match pyFloatL s with
        | none => .error (.valueError (floatErrMsg (String.mk s)))
        | some sv => .ok (mv + sv / 60)
  | [hh, m, s] =>
      match pyFloatL hh with
      | none => .error (.valueError (floatErrMsg (String.mk hh)))
      | some hv =>
        match pyFloatL m with
        | none => .error (.valueError (floatErrMsg (String.mk m)))
        | some mv =>
          match pyFloatL s with
          | none => .error (.valueError (floatErrMsg (String.mk s)))
          | some sv => .ok (hv * 60 + mv + sv / 60)
  | _ => .error (.inputError time "time")

/-- `PaceCalculator.time_str_to_minutes`. -/
def time_str_to_minutes (time : String) : Except PyError ℚ :=
  let t := pyStrip time
  if t.data.any (fun c => c = 'h' || c = 'm' || c = 's') then
    _parse_time_with_letters t
  else if t.data.contains ':' then
    _parse_time_with_colons t
  else
    match pyFloatL t.data with
    | some v => .ok v
    | none => .error (.inputError t "time")

/-- `PaceCalculator.pace_str_to_minutes`.  A two-part colon form is computed
with unguarded `float` calls; any other colon form falls through to the
guarded bare-float attempt. -/
def pace_str_to_minutes (pace : String) : Except PyError ℚ :=
  let p := pyStrip pace
  if p.data.contains ':' then
    match splitOnChar ':' p.data with
    | [m, s] =>
        match pyFloatL m with
        | none => .error (.valueError (floatErrMsg (String.mk m)))
        | some mv =>
          match pyFloatL s with
          | none => .error (.valueError (floatErrMsg (String.mk s)))
          | some sv => .ok (mv + sv / 60)
    | _ =>
        match pyFloatL p.data with
        | some v => .ok v
        | none => .error (.inputError p "pace")
  else
    match pyFloatL p.data with
    | some v => .ok v
    | none => .error (.inputError p "pace")

/-! ## Formatter -/

/-- Python's `format(n, "02d")`: zero-pad to width 2. -/
def pad2 (n : ℤ) : String :=
  let s := toString n
  if s.length < 2 then "0" ++ s else s

/-- `PaceCalculator.minutes_to_time_str`.  `divmod(x, 1)` floors and leaves
a non-negative fraction; `int(secs * 60)` truncates, which for the
non-negative fraction is `Int.floor`. -/
def minutes_to_time_str (minutes : ℚ) (show_hours : Bool) : String :=
  if minutes < 60 ∨ show_hours = false then
    toString ⌊minutes⌋ ++ ":" ++ pad2 ⌊(minutes - ⌊minutes⌋) * 60⌋
  else
    let hours : ℤ := ⌊minutes / 60⌋
    let rem : ℚ := minutes - 60 * hours
    toString hours ++ ":" ++ pad2 ⌊rem⌋ ++ ":" ++ pad2 ⌊(rem - ⌊rem⌋) * 60⌋

/-! ## Metrics record and derivation engine -/

/-- `RunningMetrics` (dicts become ordered association lists, matching the
insertion order the program displays). -/
structure RunningMetrics where
  distance_km : ℚ
  time_minutes : ℚ
  pace_min_per_km : ℚ
  speed_kmh : ℚ
  splits : List (String × String)
  projected_times : List (String × String)
  training_zones : List (String × String)
  deriving DecidableEq, Repr

/-- The checkpoint list `[1, 5, 10, 21.0975, 42.195]` of
`_calculate_splits`, paired with the Python label `f"{dist}km"`. -/
def SPLIT_DISTANCES : List (ℚ × String) :=
  [(1, "1km"), (5, "5km"), (10, "10km"), (21.0975, "21.0975km"), (42.195, "42.195km")]

/-- The checkpoint list `[5, 10, 21.0975, 42.195]` of
`_calculate_projected_times`, paired with the Python label `f"{dist}km"`. -/
def PROJECTION_DISTANCES : List (ℚ × String) :=
  [(5, "5km"), (10, "10km"), (21.0975, "21.0975km"), (42.195, "42.195km")]

/-- `PaceCalculator._calculate_splits`. -/
def _calculate_splits (pace_mins : ℚ) : List (String × String) :=
  SPLIT_DISTANCES.map (fun d =>
    (d.2, minutes_to_time_str (d.1 * pace_mins) (decide (10 ≤ d.1))))

/-- `PaceCalculator._calculate_projected_times` (the `time_mins` parameter
is taken but only shadowed in the source's loop). -/
def _calculate_projected_times (distance_km time_mins pace_mins : ℚ) :
    List (String × String) :=
  PROJECTION_DISTANCES.filterMap (fun d =>
    if d.1 ≠ distance_km then
      some (d.2, minutes_to_time_str (d.1 * pace_mins) (decide (10 ≤ d.1)))
    else none)

/-- `PaceCalculator._calculate_training_zones`. -/
def _calculate_training_zones (threshold_pace : ℚ) : List (String × String) :=
  TRAINING_ZONES.map (fun z =>
    (z.1, minutes_to_time_str (threshold_pace * z.2.1) false ++ " - " ++
          minutes_to_time_str (threshold_pace * z.2.2) false))

/-- Python truthiness of an optional string argument: `None` and `""` are
falsy, every other string is truthy. -/
def truthy : Option String → Bool
  | none => false
  | some s => !(s == "")

/-- Builds the `RunningMetrics` returned at the end of `calculate_metrics`
from the three established quantities (`speed_kmh = 60 / pace_mins if
pace_mins > 0 else 0`). -/
def mkMetrics (dist_km time_mins pace_mins : ℚ) : RunningMetrics :=
  { distance_km := dist_km
    time_minutes := time_mins
    pace_min_per_km := pace_mins
    speed_kmh := if 0 < pace_mins then 60 / pace_mins else 0
    splits := _calculate_splits pace_mins
    projected_times := _calculate_projected_times dist_km time_mins pace_mins
    training_zones := _calculate_training_zones pace_mins }

/-- `PaceCalculator.calculate_metrics`.  Branch selection tests Python
truthiness of the three optional strings.  Python float division by zero
raises the builtin `ZeroDivisionError`, modelled by the explicit zero
tests guarding the two divisions. -/
def calculate_metrics (distance time pace : Option String) :
    Except PyError RunningMetrics :=
  if truthy distance && truthy time && !truthy pace then
    match distance_str_to_km (distance.getD "") with
    | .error e => .error e
    | .ok dist_km =>
      match time_str_to_minutes (time.getD "") with
      | .error e => .error e
      | .ok time_mins =>
        if dist_km = 0 then .error .zeroDivisionError
        else .ok (mkMetrics dist_km time_mins (time_mins / dist_km))
  else if truthy distance && truthy pace && !truthy time then
    match distance_str_to_km (distance.getD "") with
    | .error e => .error e
    | .ok dist_km =>
      match pace_str_to_minutes (pace.getD "") with
      | .error e => .error e
      | .ok pace_mins => .ok (mkMetrics dist_km (dist_km * pace_mins) pace_mins)
  else if truthy time && truthy pace && !truthy distance then
    match time_str_to_minutes (time.getD "") with
    | .error e => .error e
    | .ok time_mins =>
      match pace_str_to_minutes (pace.getD "") with
      | .error e => .error e
      | .ok pace_mins =>
        if pace_mins = 0 then .error .zeroDivisionError
        else .ok (mkMetrics (time_mins / pace_mins) time_mins pace_mins)
  else .error (.valueError invalidArgumentsMsg)

/-! ## Claim-side auxiliary definitions -/

/-- Number of non-null (`some`) arguments, as counted by claim C2's reading
of "supplied". -/
def numSupplied (distance time pace : Option String) : ℕ :=
  (if distance.isSome then 1 else 0) + (if time.isSome then 1 else 0) +
    (if pace.isSome then 1 else 0)

/-- Number of truthy arguments: the quantity the code's branch selection
actually depends on. -/
def numTruthy (distance time pace : Option String) : ℕ :=
  (if truthy distance then 1 else 0) + (if truthy time then 1 else 0) +
    (if truthy pace then 1 else 0)

/-- Modelled from the spec: the `M:SS` / `H:MM:SS` formatter exactly as
§4.4 words it, with `SS = round(fractional-minutes * 60)` (rounding, not
the source's truncation).  Used only to compare against
`minutes_to_time_str`. -/
def formatMinutesSpecRounded (value : ℚ) (useHours : Bool) : String :=
  if value < 60 ∨ useHours = false then
    toString ⌊value⌋ ++ ":" ++ pad2 (round ((value - ⌊value⌋) * 60))
  else
    let hours : ℤ := ⌊value / 60⌋
    let rem : ℚ := value - 60 * hours
    toString hours ++ ":" ++ pad2 ⌊rem⌋ ++ ":" ++ pad2 (round ((rem - ⌊rem⌋) * 60))

end PaceCalc

namespace PaceCalc

attribute [local semireducible] Rat.ofScientific Rat.mul Rat.add Rat.sub Rat.inv

deriving instance DecidableEq for Except

/-! ## General lemmas -/

theorem truthy_none : truthy none = false := rfl

theorem truthy_some_of_ne {s : String} (h : s ≠ "") : truthy (some s) = true := by
  simp [truthy, h]

theorem distance_empty : distance_str_to_km "" = .error (.inputError "" "distance") := rfl

theorem time_empty : time_str_to_minutes "" = .error (.inputError "" "time") := rfl

theorem pace_empty : pace_str_to_minutes "" = .error (.inputError "" "pace") := rfl

theorem distance_ok_ne_empty {d : String} {v : ℚ} (h : distance_str_to_km d = .ok v) :
    d ≠ "" := by
  rintro rfl; rw [distance_empty] at h; exact Except.noConfusion h

theorem time_ok_ne_empty {t : String} {v : ℚ} (h : time_str_to_minutes t = .ok v) :
    t ≠ "" := by
  rintro rfl; rw [time_empty] at h; exact Except.noConfusion h

theorem pace_ok_ne_empty {p : String} {v : ℚ} (h : pace_str_to_minutes p = .ok v) :
    p ≠ "" := by
  rintro rfl; rw [pace_empty] at h; exact Except.noConfusion h

/-- Success shape of the distance+time branch. -/
theorem calculate_metrics_dist_time {d t : String} {dk tm : ℚ}
    (hd : distance_str_to_km d = .ok dk) (ht : time_str_to_minutes t = .ok tm)
    (h0 : dk ≠ 0) :
    calculate_metrics (some d) (some t) none = .ok (mkMetrics dk tm (tm / dk)) := by
  have hd' := distance_ok_ne_empty hd
  have ht' := time_ok_ne_empty ht
  simp only [calculate_metrics, truthy_some_of_ne hd', truthy_some_of_ne ht', truthy_none,
    Bool.and_self, Bool.not_false, Bool.and_true, Bool.true_and, if_true,
    Option.getD_some]
  rw [hd, ht]
  simp [h0]

/-- Success shape of the distance+pace branch. -/
theorem calculate_metrics_dist_pace {d p : String} {dk pm : ℚ}
    (hd : distance_str_to_km d = .ok dk) (hp : pace_str_to_minutes p = .ok pm) :
    calculate_metrics (some d) none (some p) = .ok (mkMetrics dk (dk * pm) pm) := by
  have hd' := distance_ok_ne_empty hd
  have hp' := pace_ok_ne_empty hp
  simp only [calculate_metrics, truthy_some_of_ne hd', truthy_some_of_ne hp', truthy_none,
    Bool.and_self, Bool.not_false, Bool.and_true, Bool.true_and, Bool.and_false,
    Bool.false_and, Bool.not_true, if_false, if_true, Option.getD_some]
  rw [hd, hp]
  simp

/-- Success shape of the time+pace branch. -/
theorem calculate_metrics_time_pace {t p : String} {tm pm : ℚ}
    (ht : time_str_to_minutes t = .ok tm) (hp : pace_str_to_minutes p = .ok pm)
    (h0 : pm ≠ 0) :
    calculate_metrics none (some t) (some p) = .ok (mkMetrics (tm / pm) tm pm) := by
  have ht' := time_ok_ne_empty ht
  have hp' := pace_ok_ne_empty hp
  simp only [calculate_metrics, truthy_some_of_ne ht', truthy_some_of_ne hp', truthy_none,
    Bool.and_self, Bool.not_false, Bool.and_true, Bool.true_and, Bool.and_false,
    Bool.false_and, Bool.not_true, if_false, if_true, Option.getD_some]
  rw [ht, hp]
  simp [h0]

/-! ## Claim C1 -/

/-- C1: for every pair of valid input strings, `calculate_metrics` computes
the missing quantity by the stated equation: given distance and time,
`pace_min_per_km = time_minutes / distance_km`; given distance and pace,
`time_minutes = distance_km * pace_min_per_km`; given time and pace,
`distance_km = time_minutes / pace_min_per_km`. -/
theorem derive_missing_quantity_equations :
    (∀ d t dk tm, distance_str_to_km d = .ok dk → time_str_to_minutes t = .ok tm →
      dk ≠ 0 →
      (calculate_metrics (some d) (some t) none).map RunningMetrics.distance_km = .ok dk ∧
      (calculate_metrics (some d) (some t) none).map RunningMetrics.time_minutes = .ok tm ∧
      (calculate_metrics (some d) (some t) none).map RunningMetrics.pace_min_per_km =
        .ok (tm / dk)) ∧
    (∀ d p dk pm, distance_str_to_km d = .ok dk → pace_str_to_minutes p = .ok pm →
      (calculate_metrics (some d) none (some p)).map RunningMetrics.distance_km = .ok dk ∧
      (calculate_metrics (some d) none (some p)).map RunningMetrics.pace_min_per_km = .ok pm ∧
      (calculate_metrics (some d) none (some p)).map RunningMetrics.time_minutes =
        .ok (dk * pm)) ∧
    (∀ t p tm pm, time_str_to_minutes t = .ok tm → pace_str_to_minutes p = .ok pm →
      pm ≠ 0 →
      (calculate_metrics none (some t) (some p)).map RunningMetrics.time_minutes = .ok tm ∧
      (calculate_metrics none (some t) (some p)).map RunningMetrics.pace_min_per_km = .ok pm ∧
      (calculate_metrics none (some t) (some p)).map RunningMetrics.distance_km =
        .ok (tm / pm)) := by
  refine ⟨fun d t dk tm hd ht h0 => ?_, fun d p dk pm hd hp => ?_,
    fun t p tm pm ht hp h0 => ?_⟩
  · rw [calculate_metrics_dist_time hd ht h0]; exact ⟨rfl, rfl, rfl⟩
  · rw [calculate_metrics_dist_pace hd hp]; exact ⟨rfl, rfl, rfl⟩
  · rw [calculate_metrics_time_pace ht hp h0]; exact ⟨rfl, rfl, rfl⟩

/-- Witness for C1 at concrete inputs: 10 km in 45 minutes gives pace
45/10; 10 km at 4:30 gives time 10*(4+30/60); 45 minutes at 5 gives
distance 45/5. -/
theorem derive_missing_quantity_equations_witness :
    (calculate_metrics (some "10") (some "45") none).map RunningMetrics.pace_min_per_km =
      .ok ((45 : ℚ) / 10) ∧
    (calculate_metrics (some "10") none (some "4:30")).map RunningMetrics.time_minutes =
      .ok ((10 : ℚ) * (4 + 30 / 60)) ∧
    (calculate_metrics none (some "45") (some "5")).map RunningMetrics.distance_km =
      .ok ((45 : ℚ) / 5) :=
  ⟨(derive_missing_quantity_equations.1 "10" "45" 10 45 (by decide) (by decide)
      (by norm_num)).2.2,
   (derive_missing_quantity_equations.2.1 "10" "4:30" 10 (4 + 30 / 60) (by decide)
      (by decide)).2.2,
   (derive_missing_quantity_equations.2.2 "45" "5" 45 5 (by decide) (by decide)
      (by norm_num)).2.2⟩

/-! ## Claim C2 -/

/-- C2 counterexample: three non-null arguments, one of them the empty
string, do not fail with `InvalidArguments`: the call succeeds (the code
tests truthiness, not nullness). -/
theorem numSupplied_three_can_succeed :
    numSupplied (some "5") (some "") (some "4:30") = 3 ∧
    (calculate_metrics (some "5") (some "") (some "4:30")).isOk = true := by decide

/-- C2 amended: presence of an argument is decided by Python truthiness
(non-null and non-empty); whenever the number of truthy arguments is zero,
one, or three, `calculate_metrics` fails with the wrong-argument-count
`ValueError` (the spec's `InvalidArguments`) and with no other error. -/
theorem numTruthy_ne_two_invalid_arguments :
    ∀ d t p, (numTruthy d t p = 0 ∨ numTruthy d t p = 1 ∨ numTruthy d t p = 3) →
      calculate_metrics d t p = .error (.valueError invalidArgumentsMsg) := by
  intro d t p h
  cases hd : truthy d <;> cases ht : truthy t <;> cases hp : truthy p <;>
    simp_all [numTruthy, calculate_metrics]

/-- Witness for the amended C2: all three arguments truthy fails with
`InvalidArguments`. -/
theorem numTruthy_ne_two_invalid_arguments_witness :
    calculate_metrics (some "5") (some "45") (some "4:30") =
      .error (.valueError invalidArgumentsMsg) :=
  numTruthy_ne_two_invalid_arguments (some "5") (some "45") (some "4:30") (by decide)

/-! ## Claim C3 -/

/-- C3 counterexample: with a parsed divisor of exactly 0 the engine fails
with the untyped Python builtin `ZeroDivisionError`, not with a typed
`DivisionByZero` error (no such typed error exists in the program). -/
theorem zero_divisor_raises_builtin :
    calculate_metrics (some "0") (some "45") none = .error .zeroDivisionError ∧
    calculate_metrics none (some "45") (some "0") = .error .zeroDivisionError := by decide

/-- C3 amended: whenever the parsed distance (in the distance+time case) or
the parsed pace (in the time+pace case) is exactly 0, the engine fails with
the builtin `ZeroDivisionError`; no infinity is ever produced. -/
theorem zero_divisor_always_zero_division_error :
    (∀ d t dk tm, distance_str_to_km d = .ok dk → time_str_to_minutes t = .ok tm →
      dk = 0 → calculate_metrics (some d) (some t) none = .error .zeroDivisionError) ∧
    (∀ t p tm pm, time_str_to_minutes t = .ok tm → pace_str_to_minutes p = .ok pm →
      pm = 0 → calculate_metrics none (some t) (some p) = .error .zeroDivisionError) := by
  constructor
  · intro d t dk tm hd ht h0
    have hd' := distance_ok_ne_empty hd
    have ht' := time_ok_ne_empty ht
    simp only [calculate_metrics, truthy_some_of_ne hd', truthy_some_of_ne ht', truthy_none,
      Bool.and_self, Bool.not_false, Bool.and_true, Bool.true_and, if_true,
      Option.getD_some]
    rw [hd, ht]
    simp [h0]
  · intro t p tm pm ht hp h0
    have ht' := time_ok_ne_empty ht
    have hp' := pace_ok_ne_empty hp
    simp only [calculate_metrics, truthy_some_of_ne ht', truthy_some_of_ne hp', truthy_none,
      Bool.and_self, Bool.not_false, Bool.and_true, Bool.true_and, Bool.and_false,
      Bool.false_and, Bool.not_true, if_false, if_true, Option.getD_some]
    rw [ht, hp]
    simp [h0]

/-- Witness for the amended C3 at distance "0" / pace "0". -/
theorem zero_divisor_always_zero_division_error_witness :
    calculate_metrics (some "0") (some "45") none = .error .zeroDivisionError ∧
    calculate_metrics none (some "45") (some "0") = .error .zeroDivisionError :=
  ⟨zero_divisor_always_zero_division_error.1 "0" "45" 0 45 (by decide) (by decide) rfl,
   zero_divisor_always_zero_division_error.2 "45" "0" 45 0 (by decide) (by decide) rfl⟩

/-! ## Claim C5 -/

/-- C5 counterexample: at 0.025 minutes the formatter truncates the
seconds (1.5 seconds becomes "01"), while the claim's rounding formatter
produces "02". -/
theorem formatter_truncates_not_rounds :
    minutes_to_time_str (1 / 40) false = "0:01" ∧
    formatMinutesSpecRounded (1 / 40) false = "0:02" ∧
    minutes_to_time_str (1 / 40) false ≠ formatMinutesSpecRounded (1 / 40) false := by
  decide

/-- C5 amended: for non-negative `v` with `v < 60` or `useHours = false`,
`minutes_to_time_str` returns "M:SS" with `M = floor v` and `SS` the
TRUNCATION (floor, not rounding) of the fractional minutes times 60,
zero-padded to two digits; the seconds value always lies in [0, 59], so no
"M:60" is ever produced. -/
theorem minutes_to_time_str_truncates (v : ℚ) (uh : Bool) (h0 : 0 ≤ v)
    (h : v < 60 ∨ uh = false) :
    minutes_to_time_str v uh = toString ⌊v⌋ ++ ":" ++ pad2 ⌊(v - ⌊v⌋) * 60⌋ ∧
    0 ≤ ⌊(v - (⌊v⌋ : ℚ)) * 60⌋ ∧ ⌊(v - (⌊v⌋ : ℚ)) * 60⌋ ≤ 59 := by
  have h1 : (0 : ℚ) ≤ v - ⌊v⌋ := sub_nonneg.2 (Int.floor_le v)
  have h2 : v - (⌊v⌋ : ℚ) < 1 := by
    have := Int.lt_floor_add_one v
    linarith
  refine ⟨?_, ?_, ?_⟩
  · unfold minutes_to_time_str
    rw [if_pos h]
  · exact Int.floor_nonneg.2 (by nlinarith)
  · have h3 : ⌊(v - (⌊v⌋ : ℚ)) * 60⌋ < 60 := by
      rw [Int.floor_lt]
      push_cast
      nlinarith
    omega

/-- Witness for the amended C5 at 30.5 minutes. -/
theorem minutes_to_time_str_truncates_witness :
    minutes_to_time_str (61 / 2) true =
      toString ⌊(61 / 2 : ℚ)⌋ ++ ":" ++ pad2 ⌊((61 / 2 : ℚ) - ⌊(61 / 2 : ℚ)⌋) * 60⌋ ∧
    0 ≤ ⌊((61 / 2 : ℚ) - (⌊(61 / 2 : ℚ)⌋ : ℚ)) * 60⌋ ∧
    ⌊((61 / 2 : ℚ) - (⌊(61 / 2 : ℚ)⌋ : ℚ)) * 60⌋ ≤ 59 :=
  minutes_to_time_str_truncates (61 / 2) true (by norm_num) (Or.inl (by norm_num))

/-! ## Claim C8 -/

/-- C8: the preset tokens "10k" and "5k" hit the exact-match preset lookup
before the generic "k" suffix is ever tried, so they parse to exactly 10.0
and 5.0 kilometers. -/
theorem parse_distance_10k_5k_presets :
    distance_str_to_km "10k" = .ok 10 ∧ distance_str_to_km "5k" = .ok 5 := by decide

/-! ## Claim C9 -/

/-- C9: `calculate_metrics` treats an empty-string argument exactly like an
absent (`None`) argument — presence is string truthiness — and in
particular distance "5km" with time "" and pace "4:30" computes the
distance+pace case (time 22.5 minutes) instead of failing with
`InvalidArguments`. -/
theorem empty_string_argument_like_none :
    (∀ t p, calculate_metrics (some "") t p = calculate_metrics none t p) ∧
    (∀ d p, calculate_metrics d (some "") p = calculate_metrics d none p) ∧
    (∀ d t, calculate_metrics d t (some "") = calculate_metrics d t none) ∧
    (calculate_metrics (some "5km") (some "") (some "4:30")).map
      RunningMetrics.time_minutes = .ok (45 / 2) := by
  refine ⟨fun t p => rfl, fun d p => rfl, fun d t => rfl, by decide⟩

/-! ## Claim C10 -/

theorem data_append (s t : String) : (s ++ t).data = s.data ++ t.data := by
  cases s; cases t; rfl

theorem pyEndsWith_append (x u : String) : pyEndsWith (x ++ u) u = true := by
  simp only [pyEndsWith, data_append, List.length_append, Nat.add_sub_cancel,
    decide_eq_true_eq]
  exact ⟨Nat.le_add_left _ _, List.drop_left _ _⟩

theorem pyRemoveSuffix_append (x u : String) : pyRemoveSuffix (x ++ u) u = x := by
  simp only [pyRemoveSuffix, pyEndsWith_append, if_true, data_append, List.length_append,
    Nat.add_sub_cancel, List.take_left]

/-- C10: an input of the form "<float>m" that is no preset token and whose
suffix matches none of the earlier table entries ("mi", "km", "k") is
parsed with the single-letter unit "m", whose multiplier is the marathon
distance: the numeric prefix times 42.195. -/
theorem parse_distance_m_suffix_is_marathon_unit (x : String) (q : ℚ)
    (hf : pyFloatL x.data = some q)
    (hnorm : pyStrip (pyLower (x ++ "m")) = x ++ "m")
    (hpre : lookupUnit (x ++ "m") DISTANCE_UNITS = none)
    (h1 : pyEndsWith (x ++ "m") "mi" = false)
    (h2 : pyEndsWith (x ++ "m") "km" = false)
    (h3 : pyEndsWith (x ++ "m") "k" = false) :
    distance_str_to_km (x ++ "m") = .ok (q * 42.195) := by
  have hm : pyEndsWith (x ++ "m") "m" = true := pyEndsWith_append x "m"
  simp only [DISTANCE_UNITS] at hpre
  simp only [distance_str_to_km, hnorm, DISTANCE_UNITS, findSuffixUnit, hpre, h1, h2, h3,
    hm, Bool.false_eq_true, if_false, if_true]
  rw [pyRemoveSuffix_append, hf]

/-- Witness for C10: "100m" parses to 100 * 42.195 = 4219.5 kilometers. -/
theorem parse_distance_m_suffix_is_marathon_unit_witness :
    distance_str_to_km "100m" = .ok (4219.5 : ℚ) := by
  have h := parse_distance_m_suffix_is_marathon_unit "100" 100 (by decide) (by decide)
    (by decide) (by decide) (by decide) (by decide)
  have e : ("100" : String) ++ "m" = "100m" := rfl
  rw [e] at h
  rw [h]
  norm_num

/-! ## Claim C7 -/

/-- Every successful run returns a record whose `projected_times` field was
built by `_calculate_projected_times` from the record's own distance, time
and pace. -/
theorem calculate_metrics_ok_shape {d t p : Option String} {m : RunningMetrics}
    (h : calculate_metrics d t p = .ok m) :
    m.projected_times =
      _calculate_projected_times m.distance_km m.time_minutes m.pace_min_per_km := by
  unfold calculate_metrics at h
  repeat' split at h
  all_goals first
    | exact Except.noConfusion h
    | (injection h with h; subst h; rfl)

/-- C7: for every successful derivation, `projected_times` contains exactly
the labels of the checkpoints in {5, 10, 21.0975, 42.195} different (by
exact equality) from the computed distance, each mapped to the formatted
time `c * pace` with hours shown iff `c ≥ 10`; the checkpoint equal to the
input distance is omitted. -/
theorem projected_times_exactly_checkpoints :
    ∀ d t p m, calculate_metrics d t p = .ok m → ∀ lbl s,
      ((lbl, s) ∈ m.projected_times ↔
        ∃ c, (c, lbl) ∈ PROJECTION_DISTANCES ∧ c ≠ m.distance_km ∧
          s = minutes_to_time_str (c * m.pace_min_per_km) (decide (10 ≤ c))) := by
  intro d t p m h lbl s
  rw [calculate_metrics_ok_shape h]
  unfold _calculate_projected_times
  rw [List.mem_filterMap]
  constructor
  · rintro ⟨⟨c, l⟩, hmem, hf⟩
    dsimp only at hf
    by_cases hc : c ≠ m.distance_km
    · rw [if_pos hc] at hf
      injection hf with hf
      injection hf with hf1 hf2
      exact ⟨c, by rwa [hf1] at hmem, hc, hf2.symm⟩
    · rw [if_neg hc] at hf
      exact absurd hf (by simp)
  · rintro ⟨c, hmem, hc, hs⟩
    refine ⟨(c, lbl), hmem, ?_⟩
    dsimp only
    rw [if_pos hc, hs]

/-- The metrics record computed for distance "10" and time "45": a shared
concrete instance for witnesses. -/
def metrics_10_45 : RunningMetrics :=
  { distance_km := 10, time_minutes := 45, pace_min_per_km := 9 / 2, speed_kmh := 40 / 3,
    splits := [("1km", "4:30"), ("5km", "22:30"), ("10km", "45:00"),
               ("21.0975km", "1:34:56"), ("42.195km", "3:09:52")],
    projected_times := [("5km", "22:30"), ("21.0975km", "1:34:56"),
                        ("42.195km", "3:09:52")],
    training_zones := [("Easy", "5:10 - 5:37"), ("Threshold", "4:43 - 5:10"),
                       ("Tempo", "4:30 - 4:43"), ("VO2 Max", "4:03 - 4:30"),
                       ("Speed", "3:36 - 4:03")] }

/-- Witness for C7 on the derivation of 10 km in 45 minutes, at the
checkpoint label "5km". -/
theorem projected_times_exactly_checkpoints_witness :
    ("5km", "22:30") ∈ metrics_10_45.projected_times ↔
      ∃ c, (c, "5km") ∈ PROJECTION_DISTANCES ∧ c ≠ metrics_10_45.distance_km ∧
        "22:30" = minutes_to_time_str (c * metrics_10_45.pace_min_per_km)
          (decide (10 ≤ c)) :=
  projected_times_exactly_checkpoints (some "10") (some "45") none metrics_10_45
    (by decide) "5km" "22:30"

/-! ## Claim C4 -/

/-- The letter-format parser only ever fails with `InputError` on the
(stripped) input. -/
theorem letters_error_shape (t : String) (e : PyError)
    (h : _parse_time_with_letters t = .error e) : e = .inputError t "time" := by
  unfold _parse_time_with_letters at h
  split at h
  · exact Except.noConfusion h
  · injection h with h; exact h.symm

/-- The colon-format parser fails either with `InputError` on the
(stripped) input (wrong part count) or with the builtin `ValueError`
raised by `float` on some part. -/
theorem colons_error_shape (t : String) (e : PyError)
    (h : _parse_time_with_colons t = .error e) :
    e = .inputError t "time" ∨ ∃ part, e = .valueError (floatErrMsg part) := by
  unfold _parse_time_with_colons at h
  repeat' split at h
  all_goals first
    | exact Except.noConfusion h
    | (injection h with h; exact Or.inl h.symm)
    | (injection h with h; exact Or.inr ⟨_, h.symm⟩)

/-- C4 counterexample: "1:xx" makes `time_str_to_minutes` fail with the
builtin `ValueError` from `float("xx")` (no try/except wraps the colon
path), not with the typed `InvalidTime`. -/
theorem time_parse_colon_part_value_error :
    time_str_to_minutes "1:xx" = .error (.valueError (floatErrMsg "xx")) := by decide

/-- C4 amended: a failing `time_str_to_minutes` fails with `InvalidTime`
carrying the STRIPPED input — except in the colon path with two or three
parts, where a part that is not float-parseable escapes as the untyped
`ValueError` of `float`. -/
theorem time_parse_failure_taxonomy :
    ∀ s e, time_str_to_minutes s = .error e →
      e = .inputError (pyStrip s) "time" ∨
      ∃ part, e = .valueError (floatErrMsg part) := by
  intro s e h
  simp only [time_str_to_minutes] at h
  split at h
  · exact Or.inl (letters_error_shape _ _ h)
  · split at h
    · exact colons_error_shape _ _ h
    · split at h
      · exact Except.noConfusion h
      · injection h with h; exact Or.inl h.symm

/-- Witness for the amended C4 at "1:xx". -/
theorem time_parse_failure_taxonomy_witness :
    PyError.valueError (floatErrMsg "xx") = .inputError (pyStrip "1:xx") "time" ∨
    ∃ part, PyError.valueError (floatErrMsg "xx") = .valueError (floatErrMsg part) :=
  time_parse_failure_taxonomy "1:xx" (.valueError (floatErrMsg "xx")) (by decide)

/-! ## Claim C6 -/

theorem mem_of_mem_dropWhile {p : Char → Bool} :
    ∀ {l : List Char} {x : Char}, x ∈ l.dropWhile p → x ∈ l := by
  intro l
  induction l with
  | nil => intro x h; simp at h
  | cons y ys ih =>
    intro x h
    rw [List.dropWhile_cons] at h
    split at h
    · exact List.mem_cons_of_mem _ (ih h)
    · exact h

theorem pyStrip_subset {s : String} {x : Char} (h : x ∈ (pyStrip s).data) :
    x ∈ s.data := by
  have e : (pyStrip s).data =
      ((s.data.dropWhile isPySpace).reverse.dropWhile isPySpace).reverse := rfl
  rw [e, List.mem_reverse] at h
  have h2 := mem_of_mem_dropWhile h
  rw [List.mem_reverse] at h2
  exact mem_of_mem_dropWhile h2

theorem pyLowerChar_eq_minus {c : Char} (h : pyLowerChar c = '-') : c = '-' := by
  unfold pyLowerChar at h
  split at h <;> first | exact h | exact absurd h (by decide)

theorem minus_mem_pyLower {s : String} (h : '-' ∈ (pyLower s).data) : '-' ∈ s.data := by
  have e : (pyLower s).data = s.data.map pyLowerChar := rfl
  rw [e, List.mem_map] at h
  obtain ⟨c, hc, hlc⟩ := h
  rwa [pyLowerChar_eq_minus hlc] at hc

theorem pyRemoveSuffix_subset {s u : String} {x : Char}
    (h : x ∈ (pyRemoveSuffix s u).data) : x ∈ s.data := by
  unfold pyRemoveSuffix at h
  split at h
  · exact List.take_subset _ _ h
  · exact h

theorem mem_of_mem_splitOnChar (c : Char) :
    ∀ (l part : List Char), part ∈ splitOnChar c l → ∀ x ∈ part, x ∈ l := by
  intro l
  induction l with
  | nil =>
    intro part hp x hx
    simp only [splitOnChar, List.mem_singleton] at hp
    subst hp
    simp at hx
  | cons y ys ih =>
    intro part hp x hx
    simp only [splitOnChar] at hp
    by_cases hc : y = c
    · rw [if_pos hc] at hp
      rcases List.mem_cons.1 hp with h1 | h2
      · subst h1; simp at hx
      · exact List.mem_cons_of_mem _ (ih part h2 x hx)
    · rw [if_neg hc] at hp
      rcases hr : splitOnChar c ys with _ | ⟨hd, tl⟩
      · rw [hr] at hp
        rcases List.mem_singleton.1 hp with rfl
        rcases List.mem_singleton.1 hx with rfl
        exact List.mem_cons_self _ _
      · rw [hr] at hp
        rcases List.mem_cons.1 hp with h1 | h2
        · subst h1
          rcases List.mem_cons.1 hx with rfl | hxe
          · exact List.mem_cons_self _ _
          · exact List.mem_cons_of_mem _
              (ih hd (by rw [hr]; exact List.mem_cons_self _ _) x hxe)
        · exact List.mem_cons_of_mem _
            (ih part (by rw [hr]; exact List.mem_cons_of_mem _ h2) x hx)

theorem pyFloatUnsigned_nonneg : ∀ (cs : List Char) (q : ℚ),
    pyFloatUnsigned cs = some q → 0 ≤ q := by
  intro cs q h
  unfold pyFloatUnsigned at h
  repeat' split at h
  all_goals first
    | exact Option.noConfusion h
    | (injection h with h; subst h; positivity)

theorem pyFloatL_nonneg : ∀ (cs : List Char) (q : ℚ),
    pyFloatL cs = some q → '-' ∉ cs → 0 ≤ q := by
  intro cs q h hm
  unfold pyFloatL at h
  split at h
  · split at h
    · rename_i c t hc
      subst hc
      exact absurd (List.mem_cons_self _ _) hm
    · split at h
      · exact pyFloatUnsigned_nonneg _ _ h
      · exact pyFloatUnsigned_nonneg _ _ h
  · exact pyFloatUnsigned_nonneg _ _ h

theorem parseGroup_nonneg : ∀ (u : Char) (cs : List Char) (pr : ℚ × List Char),
    parseGroup u cs = some pr → 0 ≤ pr.1 := by
  intro u cs pr h
  simp only [parseGroup] at h
  repeat' split at h
  all_goals first
    | exact Option.noConfusion h
    | (injection h with h; subst h; positivity)

theorem parseSecGroup_nonneg : ∀ (cs : List Char) (pr : ℚ × List Char),
    parseSecGroup cs = some pr → 0 ≤ pr.1 := by
  intro cs pr h
  simp only [parseSecGroup] at h
  repeat' split at h
  all_goals first
    | exact Option.noConfusion h
    | (injection h with h; subst h; positivity)

theorem getD_fst_nonneg (o : Option (ℚ × List Char)) (dflt : ℚ × List Char)
    (ho : ∀ pr, o = some pr → 0 ≤ pr.1) (hd : 0 ≤ dflt.1) : 0 ≤ (o.getD dflt).1 := by
  cases o with
  | none => simpa using hd
  | some pr => simpa using ho pr rfl

theorem parseLettersPattern_nonneg : ∀ (cs : List Char) (q : ℚ),
    parseLettersPattern cs = some q → 0 ≤ q := by
  intro cs q h
  have g : ∀ (u : Char) (l : List Char), 0 ≤ ((parseGroup u l).getD (0, l)).1 :=
    fun u l => getD_fst_nonneg _ _ (fun pr hpr => parseGroup_nonneg u l pr hpr)
      (by norm_num)
  have gs : ∀ (l : List Char), 0 ≤ ((parseSecGroup l).getD (0, l)).1 :=
    fun l => getD_fst_nonneg _ _ (fun pr hpr => parseSecGroup_nonneg l pr hpr)
      (by norm_num)
  simp only [parseLettersPattern] at h
  split at h
  · injection h with h
    subst h
    refine add_nonneg (add_nonneg (mul_nonneg (g 'h' cs) (by norm_num)) (g 'm' _))
      (div_nonneg (gs _) (by norm_num))
  · exact Option.noConfusion h

/-- Parts produced by splitting carry only characters of the original. -/
theorem part_no_minus {c : Char} {l pr : List Char} {parts : List (List Char)}
    (hsp : splitOnChar c l = parts) (hpr : pr ∈ parts) (hm : '-' ∉ l) : '-' ∉ pr :=
  fun hx => hm (mem_of_mem_splitOnChar c l pr (by rw [hsp]; exact hpr) '-' hx)

theorem colons_ok_nonneg : ∀ (t : String) (q : ℚ), '-' ∉ t.data →
    _parse_time_with_colons t = .ok q → 0 ≤ q := by
  intro t q hm h
  unfold _parse_time_with_colons at h
  rcases hsp : splitOnChar ':' t.data with _ | ⟨p1, _ | ⟨p2, _ | ⟨p3, _ | ⟨p4, rest⟩⟩⟩⟩ <;>
    (rw [hsp] at h; dsimp only at h)
  · exact Except.noConfusion h
  · exact Except.noConfusion h
  · rcases hf1 : pyFloatL p1 with _ | v1 <;> (rw [hf1] at h; dsimp only at h)
    · exact Except.noConfusion h
    · rcases hf2 : pyFloatL p2 with _ | v2 <;> (rw [hf2] at h; dsimp only at h)
      · exact Except.noConfusion h
      · injection h with h
        subst h
        have n1 := pyFloatL_nonneg _ _ hf1
          (part_no_minus hsp (List.mem_cons_self _ _) hm)
        have n2 := pyFloatL_nonneg _ _ hf2
          (part_no_minus hsp (List.mem_cons_of_mem _ (List.mem_cons_self _ _)) hm)
        positivity
  · rcases hf1 : pyFloatL p1 with _ | v1 <;> (rw [hf1] at h; dsimp only at h)
    · exact Except.noConfusion h
    · rcases hf2 : pyFloatL p2 with _ | v2 <;> (rw [hf2] at h; dsimp only at h)
      · exact Except.noConfusion h
      · rcases hf3 : pyFloatL p3 with _ | v3 <;> (rw [hf3] at h; dsimp only at h)
        · exact Except.noConfusion h
        · injection h with h
          subst h
          have n1 := pyFloatL_nonneg _ _ hf1
            (part_no_minus hsp (List.mem_cons_self _ _) hm)
          have n2 := pyFloatL_nonneg _ _ hf2
            (part_no_minus hsp (List.mem_cons_of_mem _ (List.mem_cons_self _ _)) hm)
          have n3 := pyFloatL_nonneg _ _ hf3
            (part_no_minus hsp
              (List.mem_cons_of_mem _ (List.mem_cons_of_mem _ (List.mem_cons_self _ _)))
              hm)
          positivity
  · exact Except.noConfusion h

theorem units_nonneg : ∀ pr ∈ DISTANCE_UNITS, 0 ≤ pr.2 := by decide

theorem lookupUnit_nonneg : ∀ (l : List (String × ℚ)), (∀ pr ∈ l, 0 ≤ pr.2) →
    ∀ d v, lookupUnit d l = some v → 0 ≤ v := by
  intro l
  induction l with
  | nil => intro _ d v h; exact Option.noConfusion h
  | cons pr rest ih =>
    intro hl d v h
    obtain ⟨u, mv⟩ := pr
    unfold lookupUnit at h
    split at h
    · injection h with h; subst h; exact hl (u, mv) (List.mem_cons_self _ _)
    · exact ih (fun pr hpr => hl pr (List.mem_cons_of_mem _ hpr)) d v h

theorem findSuffixUnit_mem : ∀ (l : List (String × ℚ)) (d : String) (pr : String × ℚ),
    findSuffixUnit d l = some pr → pr ∈ l := by
  intro l
  induction l with
  | nil => intro d pr h; exact Option.noConfusion h
  | cons hd rest ih =>
    intro d pr h
    obtain ⟨u, mv⟩ := hd
    unfold findSuffixUnit at h
    split at h
    · injection h with h; exact h ▸ List.mem_cons_self _ _
    · exact List.mem_cons_of_mem _ (ih d pr h)

theorem distance_ok_nonneg : ∀ (s : String) (q : ℚ), '-' ∉ s.data →
    distance_str_to_km s = .ok q → 0 ≤ q := by
  intro s q hm h
  have hmd : '-' ∉ (pyStrip (pyLower s)).data :=
    fun hx => hm (minus_mem_pyLower (pyStrip_subset hx))
  simp only [distance_str_to_km] at h
  rcases hl : lookupUnit (pyStrip (pyLower s)) DISTANCE_UNITS with _ | value <;>
    (rw [hl] at h; dsimp only at h)
  · rcases hfu : findSuffixUnit (pyStrip (pyLower s)) DISTANCE_UNITS with _ | ⟨u, mult⟩ <;>
      (rw [hfu] at h; dsimp only at h)
    · rcases hfl : pyFloatL (pyStrip (pyLower s)).data with _ | v <;>
        (rw [hfl] at h; dsimp only at h)
      · exact Except.noConfusion h
      · injection h with h; subst h
        exact pyFloatL_nonneg _ _ hfl hmd
    · rcases hfl : pyFloatL (pyRemoveSuffix (pyStrip (pyLower s)) u).data with _ | v <;>
        (rw [hfl] at h; dsimp only at h)
      · exact Except.noConfusion h
      · injection h with h; subst h
        have hv : (0 : ℚ) ≤ v :=
          pyFloatL_nonneg _ _ hfl (fun hx => hmd (pyRemoveSuffix_subset hx))
        have hmul : (0 : ℚ) ≤ mult := units_nonneg (u, mult) (findSuffixUnit_mem _ _ _ hfu)
        exact mul_nonneg hv hmul
  · injection h with h; subst h
    exact lookupUnit_nonneg DISTANCE_UNITS units_nonneg _ _ hl

theorem time_ok_nonneg : ∀ (s : String) (q : ℚ), '-' ∉ s.data →
    time_str_to_minutes s = .ok q → 0 ≤ q := by
  intro s q hm h
  have hms : '-' ∉ (pyStrip s).data := fun hx => hm (pyStrip_subset hx)
  simp only [time_str_to_minutes] at h
  split at h
  · unfold _parse_time_with_letters at h
    rcases hp : parseLettersPattern (pyStrip s).data with _ | v <;>
      (rw [hp] at h; dsimp only at h)
    · exact Except.noConfusion h
    · injection h with h; subst h
      exact parseLettersPattern_nonneg _ _ hp
  · split at h
    · exact colons_ok_nonneg _ _ hms h
    · rcases hfl : pyFloatL (pyStrip s).data with _ | v <;>
        (rw [hfl] at h; dsimp only at h)
      · exact Except.noConfusion h
      · injection h with h; subst h
        exact pyFloatL_nonneg _ _ hfl hms

theorem pace_ok_nonneg : ∀ (s : String) (q : ℚ), '-' ∉ s.data →
    pace_str_to_minutes s = .ok q → 0 ≤ q := by
  intro s q hm h
  have hms : '-' ∉ (pyStrip s).data := fun hx => hm (pyStrip_subset hx)
  simp only [pace_str_to_minutes] at h
  split at h
  · rcases hsp : splitOnChar ':' (pyStrip s).data with _ | ⟨p1, _ | ⟨p2, _ | ⟨p3, rest⟩⟩⟩ <;>
      (rw [hsp] at h; dsimp only at h)
    · rcases hfl : pyFloatL (pyStrip s).data with _ | v <;>
        (rw [hfl] at h; dsimp only at h)
      · exact Except.noConfusion h
      · injection h with h; subst h; exact pyFloatL_nonneg _ _ hfl hms
    · rcases hfl : pyFloatL (pyStrip s).data with _ | v <;>
        (rw [hfl] at h; dsimp only at h)
      · exact Except.noConfusion h
      · injection h with h; subst h; exact pyFloatL_nonneg _ _ hfl hms
    · rcases hf1 : pyFloatL p1 with _ | v1 <;> (rw [hf1] at h; dsimp only at h)
      · exact Except.noConfusion h
      · rcases hf2 : pyFloatL p2 with _ | v2 <;> (rw [hf2] at h; dsimp only at h)
        · exact Except.noConfusion h
        · injection h with h
          subst h
          have n1 := pyFloatL_nonneg _ _ hf1
            (part_no_minus hsp (List.mem_cons_self _ _) hms)
          have n2 := pyFloatL_nonneg _ _ hf2
            (part_no_minus hsp (List.mem_cons_of_mem _ (List.mem_cons_self _ _)) hms)
          positivity
    · rcases hfl : pyFloatL (pyStrip s).data with _ | v <;>
        (rw [hfl] at h; dsimp only at h)
      · exact Except.noConfusion h
      · injection h with h; subst h; exact pyFloatL_nonneg _ _ hfl hms
  · rcases hfl : pyFloatL (pyStrip s).data with _ | v <;>
      (rw [hfl] at h; dsimp only at h)
    · exact Except.noConfusion h
    · injection h with h; subst h; exact pyFloatL_nonneg _ _ hfl hms

/-- C6 counterexample: the parsers do not enforce the non-negativity
invariant — a leading minus sign is accepted by `float` and propagates. -/
theorem parsers_accept_negative :
    distance_str_to_km "-5" = .ok (-5) ∧ ¬(0 ≤ (-5 : ℚ)) ∧
    time_str_to_minutes "-10" = .ok (-10) ∧ pace_str_to_minutes "-4" = .ok (-4) := by
  decide

/-- C6 amended: for inputs containing no '-' character, every value
accepted by any of the three quantity parsers is non-negative (and in this
rational model every value is finite). -/
theorem parsers_nonneg_without_minus :
    (∀ s q, '-' ∉ s.data → distance_str_to_km s = .ok q → 0 ≤ q) ∧
    (∀ s q, '-' ∉ s.data → time_str_to_minutes s = .ok q → 0 ≤ q) ∧
    (∀ s q, '-' ∉ s.data → pace_str_to_minutes s = .ok q → 0 ≤ q) :=
  ⟨distance_ok_nonneg, time_ok_nonneg, pace_ok_nonneg⟩

/-- Witness for the amended C6 at "4.5" / "45" / "4:30". -/
theorem parsers_nonneg_without_minus_witness :
    distance_str_to_km "4.5" = .ok (9 / 2) ∧ (0 : ℚ) ≤ 9 / 2 ∧
    time_str_to_minutes "45" = .ok 45 ∧ (0 : ℚ) ≤ 45 ∧
    pace_str_to_minutes "4:30" = .ok (9 / 2) ∧ (0 : ℚ) ≤ 9 / 2 :=
  ⟨by decide, parsers_nonneg_without_minus.1 "4.5" (9 / 2) (by decide) (by decide),
   by decide, parsers_nonneg_without_minus.2.1 "45" 45 (by decide) (by decide),
   by decide, parsers_nonneg_without_minus.2.2 "4:30" (9 / 2) (by decide) (by decide)⟩

end PaceCalc
